import Mathlib

/-!
Verification of the genre-normalization / genre-scoring pipeline
(`src/dashboard/spotify_dashboard.py`) and of the paginated extraction loop
(`src/data_extract_load/load_spotify_data.py`) of the spotify_dashboard
repository.

Python strings are modelled as `List Char` (`Str`), Python runtime values
reaching the genre normalizer as the closed sum type `PyVal`, and pandas
tables as lists of records.  Operations that can raise in Python are
modelled in `Except Unit`; everything the dashboard code catches is caught
at the same place in the model.
-/

/-- Python strings, modelled as lists of characters. -/
abbrev Str := List Char

/-- ASCII whitespace recognised by Python `str.strip()` (space, tab, LF,
CR, vertical tab, form feed). -/
def pyIsSpace (c : Char) : Bool :=
  c = ' ' || c = '\t' || c = '\n' || c = '\r' || c = '\x0b' || c = '\x0c'

/-- The single-quote character (written via its code point to keep the
source free of quote-literal noise). -/
def squote : Char := Char.ofNat 39

/-- Python `str.lower` on one ASCII character. -/
def pyLowerChar (c : Char) : Char :=
  if 'A' ≤ c && c ≤ 'Z' then Char.ofNat (c.toNat + 32) else c

/-- Python `str.lower`. -/
def pyLower (s : Str) : Str := s.map pyLowerChar

/-- Strip all leading and trailing characters satisfying `p`
(Python `str.strip(chars)` semantics). -/
def pyStripP (p : Char → Bool) (s : Str) : Str :=
  ((s.dropWhile p).reverse.dropWhile p).reverse

/-- Python `str.strip()` (whitespace strip). -/
def pyStripWS (s : Str) : Str := pyStripP pyIsSpace s

/-- Is `c` a single or double quote (the char set of `strip("'\x22")`)? -/
def isQuoteChar (c : Char) : Bool := c = squote || c = '"'

/-- Python `str.strip` on the quote character set. -/
def pyStripQuotes (s : Str) : Str := pyStripP isQuoteChar s

/-- Python `val.replace(";", ",")` on one character. -/
def semiToComma (c : Char) : Char := if c = ';' then ',' else c

/-- Is `c` one of the bracket/brace characters removed by the string branch
of `to_genre_list` (`replace("{","")…replace("]","")`)? -/
def isBracketChar (c : Char) : Bool := c = '{' || c = '}' || c = '[' || c = ']'

/-- Python `str.split(",")`. -/
def splitComma (s : Str) : List Str := s.splitOn ','

/-- Runtime shapes a genre field can take when it reaches
`to_genre_list` (see §4.3 of the spec): Python `None`, a float NaN,
a bare number, a string, a list/tuple/set, a numpy array, some other
iterable object, or some other non-iterable scalar object (carrying its
`str()` representation). -/
inductive PyVal where
  | vNone : PyVal
  | vNaN : PyVal
  | vInt (n : Int) : PyVal
  | vStr (s : Str) : PyVal
  | vList (xs : List PyVal) : PyVal
  | vArr (xs : List PyVal) : PyVal
  | vIter (xs : List PyVal) : PyVal
  | vObj (s : Str) : PyVal

/-- Join a list of strings with a separator (used to model Python
`str(list)` which is `"[" + ", ".join(repr-of-elements) + "]"`). -/
def joinSep (sep : Str) : List Str → Str
  | [] => []
  | [x] => x
  | x :: y :: xs => x ++ sep ++ joinSep sep (y :: xs)

mutual
/-- Python `repr` of a modelled value (strings quoted with single quotes,
containers bracketed; a simplified but adequate model). -/
def pyRepr : PyVal → Str
  | .vNone => "None".data
  | .vNaN => "nan".data
  | .vInt n => (toString n).data
  | .vStr s => squote :: s ++ [squote]
  | .vList xs => '[' :: joinSep ", ".data (pyReprList xs) ++ [']']
  | .vArr xs => '[' :: joinSep ", ".data (pyReprList xs) ++ [']']
  | .vIter xs => '[' :: joinSep ", ".data (pyReprList xs) ++ [']']
  | .vObj s => s

/-- Function `pyRepr` mapped over a list of values. -/
def pyReprList : List PyVal → List Str
  | [] => []
  | x :: xs => pyRepr x :: pyReprList xs
end

/-- Python `str()` of a modelled value: the string itself for strings,
`repr`-based rendering otherwise. -/
def pyStr : PyVal → Str
  | .vStr s => s
  | v => pyRepr v

/-- Model of `pd.isna(val)` for the scalar shapes that reach it in
`to_genre_list` (lists/arrays would raise "truth value ambiguous",
modelled as `Except.error`; the code dispatches them earlier). -/
def pdIsna : PyVal → Except Unit Bool
  | .vNone => .ok true
  | .vNaN => .ok true
  | .vInt _ => .ok false
  | .vStr _ => .ok false
  | .vObj _ => .ok false
  | .vIter _ => .ok false
  | .vList _ => .error ()
  | .vArr _ => .error ()

/-- Python `list(val)`: succeeds on iterable shapes, raises `TypeError`
(modelled as `Except.error`) on non-iterable scalars. A string iterates
into its characters. -/
def pyToList : PyVal → Except Unit (List PyVal)
  | .vList xs => .ok xs
  | .vArr xs => .ok xs
  | .vIter xs => .ok xs
  | .vStr s => .ok (s.map (fun c => .vStr [c]))
  | _ => .error ()

/-- The comprehension `[str(x).lower().strip() for x in val if str(x).strip()]`
shared by the list/tuple/set branch, the numpy branch (after `tolist()`)
and the `list(val)` fallback of `to_genre_list`. -/
def seqNorm (xs : List PyVal) : List Str :=
  (xs.filter (fun x => !(pyStripWS (pyStr x)).isEmpty)).map
    (fun x => pyStripWS (pyLower (pyStr x)))

/-- The comma pieces of the string branch of `to_genre_list`:
`val.replace(";", ",").replace("{","").replace("}","").replace("[","").replace("]","").split(",")`. -/
def strPieces (s : Str) : List Str :=
  splitComma ((s.map semiToComma).filter (fun c => !isBracketChar c))

/-- The string branch of `to_genre_list`:
`[p.strip().strip("'\x22").lower() for p in cleaned.split(",") if p.strip()]`. -/
def strNorm (s : Str) : List Str :=
  ((strPieces s).filter (fun p => !(pyStripWS p).isEmpty)).map
    (fun p => pyLower (pyStripQuotes (pyStripWS p)))

/-- The scalar fallback of `to_genre_list`:
`[str(val).lower().strip()] if str(val).strip() else []`. -/
def scalarNorm (v : PyVal) : List Str :=
  if (pyStripWS (pyStr v)).isEmpty then [] else [pyStripWS (pyLower (pyStr v))]

/-- Translation of `to_genre_list` (spotify_dashboard.py, lines 278-301) with the
exception behaviour of its internal operations made explicit: the
list/tuple/set branch, the numpy-array branch, the string branch, the
`pd.isna` check guarded by `try/except: pass`, the `list(val)` fallback
guarded by `try/except` falling back to the scalar branch. -/
def to_genre_listE (v : PyVal) : Except Unit (List Str) :=
  match v with
  | .vList xs => .ok (seqNorm xs)
  | .vArr xs => .ok (seqNorm xs)
  | .vStr s => .ok (strNorm s)
  | v =>
    match pdIsna v with
    | .ok true => .ok []
    | _ =>
      match pyToList v with
      | .ok xs => .ok (seqNorm xs)
      | .error _ => .ok (scalarNorm v)

/-- The function `to_genre_list` as a total function (the `.error` case is dead: the
source catches every exception, which theorem `C1` below establishes). -/
def to_genre_list (v : PyVal) : List Str :=
  match to_genre_listE v with
  | .ok l => l
  | .error _ => []

/-- Translation of `clean_genre_label` (spotify_dashboard.py, lines 304-313) restricted
to string labels — the only shape that reaches it from
`compute_genre_stats`, whose exploded `genre_list` column holds the
strings produced by `to_genre_list`.  Removes `[ ] { } "` via
`re.sub`, removes every `'` via `replace`, strips whitespace,
lowercases, and maps an empty result to `None`. -/
def clean_genre_label (label : Str) : Option Str :=
  let c1 := label.filter (fun c => !(c = '[' || c = ']' || c = '{' || c = '}' || c = '"'))
  let c2 := c1.filter (fun c => !(c = squote))
  let c3 := pyLower (pyStripWS c2)
  if c3.isEmpty then none else some c3


/-!
### The genre-statistics pipeline (`compute_genre_stats`)

A mart row carries the columns `compute_genre_stats` touches plus
`main_artist_id` (present in `main_mart.mart_spotify_tracks` and selected
by `load_all_tracks`, but dropped by the `work = df[[genre_col,
"popularity", "track_id", "main_artist_name"]]` projection).  The
configurable genre column is modelled as the `genre_field` field.
Nullable numeric popularity is `Option ℚ`.
-/

structure TrackRow where
  track_id : Str
  main_artist_id : Str
  main_artist_name : Str
  popularity : Option ℚ
  genre_field : PyVal

/-- A row of the `work` frame after explosion on `genre_list`. -/
structure XRow where
  genre_list : Str
  popularity : Option ℚ
  track_id : Str
  main_artist_name : Str

/-- A row of `exploded` after the `genre_clean` column is added and the
na/empty filters are applied. -/
structure CRow where
  genre_clean : Str
  popularity : Option ℚ
  track_id : Str
  main_artist_name : Str
deriving DecidableEq

/-- The step `work.explode("genre_list")` followed by the
`exploded["genre_list"].notna()` filter: one row per genre token.
(pandas turns an empty list into a single NaN row, which that very
filter removes, so flattening models the two steps together.) -/
def explodeWork (df : List TrackRow) : List XRow :=
  df.flatMap (fun r =>
    (to_genre_list r.genre_field).map (fun g =>
      { genre_list := g, popularity := r.popularity,
        track_id := r.track_id, main_artist_name := r.main_artist_name }))

/-- The `(exploded["genre_list"] != "")` filter. -/
def explodedNonEmpty (df : List TrackRow) : List XRow :=
  (explodeWork df).filter (fun x => !x.genre_list.isEmpty)

/-- Adding `genre_clean = genre_list.apply(clean_genre_label)` and keeping
the rows where it is `notna()` and `!= ""` (the second filter is encoded
by the explicit emptiness test, mirroring the source). -/
def cleanedRows (df : List TrackRow) : List CRow :=
  (explodedNonEmpty df).filterMap (fun x =>
    match clean_genre_label x.genre_list with
    | none => none
    | some c =>
      if c.isEmpty then none
      else some { genre_clean := c, popularity := x.popularity,
                  track_id := x.track_id, main_artist_name := x.main_artist_name })

/-- pandas `nunique` over a string column (all values non-null here). -/
def nuniqueStr (l : List Str) : Nat := l.dedup.length

/-- The rows of one `groupby("genre_clean")` group. -/
def groupRows (rows : List CRow) (g : Str) : List CRow :=
  rows.filter (fun r => decide (r.genre_clean = g))

/-- The `pop_weight` column: `popularity.fillna(0) / 100.0`. -/
def popWeight (r : CRow) : ℚ := r.popularity.getD 0 / 100

/-- pandas `mean` over the nullable `popularity` column of a group: nulls
are excluded; an all-null group yields NaN, modelled as `none`. -/
def meanPop (rows : List CRow) : Option ℚ :=
  if (rows.filterMap (fun r => r.popularity)).isEmpty then none
  else some ((rows.filterMap (fun r => r.popularity)).sum
      / (rows.filterMap (fun r => r.popularity)).length)

/-- One output row of `compute_genre_stats` (the aggregated columns;
`volume_weight` and `score` are the derived real-valued columns below). -/
structure GenreStat where
  genre_clean : Str
  tracks : Nat
  artists : Nat
  popularity_score : ℚ
  pop_mean : Option ℚ
deriving DecidableEq

/-- The `.agg(...)` of one group. -/
def aggGroup (rows : List CRow) (g : Str) : GenreStat :=
  { genre_clean := g
    tracks := nuniqueStr ((groupRows rows g).map (fun r => r.track_id))
    artists := nuniqueStr ((groupRows rows g).map (fun r => r.main_artist_name))
    popularity_score := ((groupRows rows g).map popWeight).sum
    pop_mean := meanPop (groupRows rows g) }

/-- The distinct group keys, in first-occurrence order. -/
def genreKeys (rows : List CRow) : List Str :=
  (rows.map (fun r => r.genre_clean)).dedup

/-- Translation of `compute_genre_stats` (spotify_dashboard.py, lines 316-340): explode,
filter, clean, filter, early-return on empty, group by `genre_clean` and
aggregate.  The final `sort_values("score", ascending=False)` only
permutes the rows; the model keeps groups in key order, and every claim
below is invariant under row order. -/
def compute_genre_stats (df : List TrackRow) : List GenreStat :=
  if (cleanedRows df).isEmpty then []
  else (genreKeys (cleanedRows df)).map (aggGroup (cleanedRows df))

/-- The `volume_weight` column: `math.sqrt(tracks) * 25`. -/
noncomputable def volume_weight (tracks : Nat) : ℝ := Real.sqrt tracks * 25

/-- The `score` column: `volume_weight + pop_mean`; a NaN `pop_mean`
propagates (modelled by `Option.map`). -/
noncomputable def score (g : GenreStat) : Option ℝ :=
  g.pop_mean.map (fun m => volume_weight g.tracks + (m : ℝ))


/-!
### The extraction loop (`spotify_search_tracks`)

`load_spotify_data.py`, lines 71-135.  A search item is abstracted by its
optional `popularity`; a page response by its raw `items` and the
provider-reported `total`; the provider (`sp.search` at the clamped page
size, for one fixed query/year/market) by a function from the request
`offset` to the page.  The function returns the list of requested
offsets paired with the yielded items.
-/

structure Item where
  popularity : Option Int
deriving DecidableEq

structure Page where
  items : List Item
  total : Nat

/-- The clamp `limit = max(1, min(limit, 50))`. -/
def clampLimit (limit : Nat) : Nat := max 1 (min limit 50)

/-- The per-item emission test:
`pop = t.get("popularity", 0); (min_popularity is None) or (pop >= min_popularity)`. -/
def keepItem (minPop : Option Int) (t : Item) : Bool :=
  match minPop with
  | none => true
  | some m => decide (t.popularity.getD 0 ≥ m)

/-- The `while True` pagination loop, starting at a given offset.  Each
iteration requests the page at `offset`; an empty page breaks; otherwise
the filtered items are yielded, `offset += limit`, and the loop breaks
when the new offset reaches the page's `total` or the hard
`max_total = 10_000` ceiling (the two `break`s of the source, merged into
one disjunction). -/
def searchAux (provider : Nat → Page) (limit : Nat) (minPop : Option Int)
    (offset : Nat) : List Nat × List Item :=
  if (provider offset).items.isEmpty then ([offset], [])
  else if offset + clampLimit limit ≥ (provider offset).total
      ∨ offset + clampLimit limit ≥ 10000 then
    ([offset], (provider offset).items.filter (keepItem minPop))
  else
    (offset :: (searchAux provider limit minPop (offset + clampLimit limit)).1,
     (provider offset).items.filter (keepItem minPop)
       ++ (searchAux provider limit minPop (offset + clampLimit limit)).2)
termination_by 10000 - offset
decreasing_by
  all_goals
    have h1 : 1 ≤ clampLimit limit := le_max_left 1 (min limit 50)
    omega

/-- Translation of `spotify_search_tracks`: pagination starts at offset 0. -/
def spotify_search_tracks (provider : Nat → Page) (limit : Nat)
    (minPop : Option Int) : List Nat × List Item :=
  searchAux provider limit minPop 0

/-!
### Specification-side definitions and concrete fixtures

The `*_spec` definitions below are written from the words of the spec (not
from the source) and are compared against the pipeline; the `provider*`
and `df*` values are the concrete scenarios named by the claims.
-/

/-- Spec §4.5 step 4: `popularity_score` is the "sum over rows of
`(popularity or 0) / 100.0`" of a genre group. -/
def popularity_score_spec (rows : List CRow) : ℚ :=
  (rows.map (fun r => r.popularity.getD 0 / 100)).sum

/-- Spec §4.5 step 4: `pop_mean` is the "arithmetic mean of raw popularity
across rows (nulls excluded from the mean)"; undefined (NaN) when every
row is null. -/
def pop_mean_spec (rows : List CRow) : Option ℚ :=
  if (rows.filterMap (fun r => r.popularity)).isEmpty then none
  else some ((rows.filterMap (fun r => r.popularity)).sum
      / (rows.filterMap (fun r => r.popularity)).length)

/-- The exploded-and-cleaned rows, keeping the whole mart row (so that the
primary-artist identifier of each exploded row remains visible).  Used
only to express the spec's claim about `artists`. -/
def cleanedPairs (df : List TrackRow) : List (Str × TrackRow) :=
  df.flatMap (fun r =>
    (to_genre_list r.genre_field).filterMap (fun g =>
      if g.isEmpty then none
      else
        match clean_genre_label g with
        | none => none
        | some c => if c.isEmpty then none else some (c, r)))

/-- Spec §4.5 step 4, claim C9: "`artists`: count of distinct
primary-artist identifiers" of a genre group. -/
def artists_by_id_spec (df : List TrackRow) (g : Str) : Nat :=
  nuniqueStr (((cleanedPairs df).filter (fun p => decide (p.1 = g))).map
    (fun p => p.2.main_artist_id))

/-- C2's scenario: a partition with provider-reported total 120, serving
full pages of 50 (and the 20-item remainder). -/
def provider120 : Nat → Page :=
  fun off => ⟨List.replicate (min 50 (120 - off)) ⟨some 55⟩, 120⟩

/-- C3's scenario: provider-reported total 50000, always serving a full
page of 50 items. -/
def provider50000 : Nat → Page :=
  fun _ => ⟨List.replicate 50 ⟨some 55⟩, 50000⟩

/-- C4's scenario: pages of 3 items with popularities 10, 60, 90, total 6
(so exactly two pages are served). -/
def provider3 : Nat → Page :=
  fun _ => ⟨[⟨some 10⟩, ⟨some 60⟩, ⟨some 90⟩], 6⟩

/-- A provider whose first page is already empty (witness scenario). -/
def providerEmpty : Nat → Page := fun _ => ⟨[], 0⟩

/-- C5's scenario: one track whose genre field is the string
`"pop, rock"`, popularity 80. -/
def dfPopRock : List TrackRow :=
  [{ track_id := "t1".data, main_artist_id := "a1".data,
     main_artist_name := "ArtistA".data, popularity := some 80,
     genre_field := .vStr "pop, rock".data }]

/-- C7's scenario: a genre group with one null-popularity row and one
popularity-80 row. -/
def dfAsym : List TrackRow :=
  [{ track_id := "t1".data, main_artist_id := "a1".data,
     main_artist_name := "ArtistA".data, popularity := none,
     genre_field := .vStr "pop".data },
   { track_id := "t2".data, main_artist_id := "a2".data,
     main_artist_name := "ArtistB".data, popularity := some 80,
     genre_field := .vStr "pop".data }]

/-- C9's scenario: two tracks by two different primary-artist identifiers
that carry the same artist name. -/
def dfC9 : List TrackRow :=
  [{ track_id := "t1".data, main_artist_id := "a1".data,
     main_artist_name := "SameName".data, popularity := some 50,
     genre_field := .vStr "pop".data },
   { track_id := "t2".data, main_artist_id := "a2".data,
     main_artist_name := "SameName".data, popularity := some 70,
     genre_field := .vStr "pop".data }]

/-- C10's scenario: one track whose genre field repeats the same token
(`"pop, pop"`, popularity 100) next to a second ordinary track
(`"pop"`, popularity 40). -/
def dfC10 : List TrackRow :=
  [{ track_id := "t1".data, main_artist_id := "a1".data,
     main_artist_name := "ArtistA".data, popularity := some 100,
     genre_field := .vStr "pop, pop".data },
   { track_id := "t2".data, main_artist_id := "a2".data,
     main_artist_name := "ArtistB".data, popularity := some 40,
     genre_field := .vStr "pop".data }]

/-- C6's witness scenario: genre `pop` gets two distinct tracks, genre
`rock` one, all with popularity 80 (equal `pop_mean`, different `tracks`). -/
def dfScore : List TrackRow :=
  [{ track_id := "t1".data, main_artist_id := "a1".data,
     main_artist_name := "ArtistA".data, popularity := some 80,
     genre_field := .vStr "pop".data },
   { track_id := "t2".data, main_artist_id := "a2".data,
     main_artist_name := "ArtistB".data, popularity := some 80,
     genre_field := .vStr "pop".data },
   { track_id := "t3".data, main_artist_id := "a3".data,
     main_artist_name := "ArtistC".data, popularity := some 80,
     genre_field := .vStr "rock".data }]

/-!
### Character and string lemmas
-/

lemma charToNat_ofNat (n : Nat) (h : n < 0xd800) : (Char.ofNat n).toNat = n := by
  have hv : Nat.isValidChar n := Or.inl h
  rw [Char.ofNat, dif_pos hv]
  simp [Char.ofNatAux, Char.toNat, UInt32.ofNat', UInt32.toNat]

lemma char_le_iff {a b : Char} : a ≤ b ↔ a.toNat ≤ b.toNat := Iff.rfl

lemma char_eq_iff {a b : Char} : a = b ↔ a.toNat = b.toNat := by
  constructor
  · rintro rfl; rfl
  · intro h
    apply Char.ext
    exact UInt32.ext h

lemma pyIsSpace_iff (c : Char) :
    pyIsSpace c = true ↔
      (c.toNat = 32 ∨ c.toNat = 9 ∨ c.toNat = 10 ∨ c.toNat = 13 ∨ c.toNat = 11 ∨ c.toNat = 12) := by
  unfold pyIsSpace
  simp only [Bool.or_eq_true, decide_eq_true_eq, char_eq_iff]
  rw [show (' ' : Char).toNat = 32 from rfl, show ('\t' : Char).toNat = 9 from rfl,
    show ('\n' : Char).toNat = 10 from rfl, show ('\r' : Char).toNat = 13 from rfl,
    show ('\x0b' : Char).toNat = 11 from rfl, show ('\x0c' : Char).toNat = 12 from rfl]
  tauto

lemma pyLowerChar_idem (c : Char) : pyLowerChar (pyLowerChar c) = pyLowerChar c := by
  unfold pyLowerChar
  by_cases h : ('A' ≤ c && c ≤ 'Z') = true
  · rw [if_pos h]
    simp only [Bool.and_eq_true, decide_eq_true_eq] at h
    have hZ : c.toNat ≤ 90 := char_le_iff.mp h.2
    have h2 : (Char.ofNat (c.toNat + 32)).toNat = c.toNat + 32 := charToNat_ofNat _ (by omega)
    rw [if_neg]
    simp only [Bool.and_eq_true, decide_eq_true_eq, not_and, char_le_iff, h2]
    rw [show ('A' : Char).toNat = 65 from rfl, show ('Z' : Char).toNat = 90 from rfl]
    have hA : 65 ≤ c.toNat := char_le_iff.mp h.1
    omega
  · rw [if_neg h, if_neg h]

lemma pyIsSpace_pyLowerChar (c : Char) : pyIsSpace (pyLowerChar c) = pyIsSpace c := by
  unfold pyLowerChar
  by_cases h : ('A' ≤ c && c ≤ 'Z') = true
  · rw [if_pos h]
    simp only [Bool.and_eq_true, decide_eq_true_eq] at h
    have hA : 65 ≤ c.toNat := char_le_iff.mp h.1
    have hZ : c.toNat ≤ 90 := char_le_iff.mp h.2
    have h2 : (Char.ofNat (c.toNat + 32)).toNat = c.toNat + 32 := charToNat_ofNat _ (by omega)
    rw [Bool.eq_iff_iff, pyIsSpace_iff, pyIsSpace_iff, h2]
    omega
  · rw [if_neg h]

lemma map_fix_iff (f : Char → Char) (l : Str) : l.map f = l ↔ ∀ c ∈ l, f c = c := by
  induction l with
  | nil => simp
  | cons a l ih => simp [List.forall_mem_cons, ih]

lemma pyLower_idem (s : Str) : pyLower (pyLower s) = pyLower s := by
  unfold pyLower
  rw [List.map_map]
  exact List.map_congr_left fun c _ => pyLowerChar_idem c

lemma mem_stripP {p : Char → Bool} {c : Char} {s : Str} (h : c ∈ pyStripP p s) : c ∈ s := by
  unfold pyStripP at h
  rw [List.mem_reverse] at h
  have h2 := (List.dropWhile_sublist p).subset h
  rw [List.mem_reverse] at h2
  exact (List.dropWhile_sublist p).subset h2

lemma lowerFixed_stripP {p : Char → Bool} {s : Str} (h : pyLower s = s) :
    pyLower (pyStripP p s) = pyStripP p s := by
  unfold pyLower at h ⊢
  rw [map_fix_iff] at h ⊢
  exact fun c hc => h c (mem_stripP hc)

lemma dropWhile_dropWhile (p : Char → Bool) (l : Str) :
    (l.dropWhile p).dropWhile p = l.dropWhile p := by
  induction l with
  | nil => rfl
  | cons a l ih => by_cases h : p a <;> simp [List.dropWhile_cons, h, ih]

lemma dropWhile_eq_self_of_prefix (p : Char → Bool) {l v : Str}
    (hl : l.dropWhile p = l) (hpre : v <+: l) : v.dropWhile p = v := by
  cases v with
  | nil => rfl
  | cons x v' =>
    obtain ⟨t, ht⟩ := hpre
    cases l with
    | nil => simp at ht
    | cons y l' =>
      have hx : x = y := by
        have h0 := congrArg (fun l => l.head?) ht
        simpa using h0
      have hpy : p y = false := by
        by_contra hpy
        simp only [Bool.not_eq_false] at hpy
        rw [List.dropWhile_cons, if_pos hpy] at hl
        have hlen := congrArg List.length hl
        have hle : (List.dropWhile p l').length ≤ l'.length := (List.dropWhile_sublist p).length_le
        simp at hlen
        omega
      rw [List.dropWhile_cons, hx, if_neg (by simp [hpy])]

lemma stripP_idem (p : Char → Bool) (s : Str) :
    pyStripP p (pyStripP p s) = pyStripP p s := by
  unfold pyStripP
  have h1 : ((s.dropWhile p).reverse.dropWhile p) <:+ (s.dropWhile p).reverse :=
    List.dropWhile_suffix p
  have h2 : ((s.dropWhile p).reverse.dropWhile p).reverse <+: s.dropWhile p := by
    have h3 := List.reverse_prefix.mpr h1
    rwa [List.reverse_reverse] at h3
  have h3 : (((s.dropWhile p).reverse.dropWhile p).reverse).dropWhile p
      = ((s.dropWhile p).reverse.dropWhile p).reverse :=
    dropWhile_eq_self_of_prefix p (dropWhile_dropWhile p s) h2
  rw [h3, List.reverse_reverse, dropWhile_dropWhile]

lemma stripP_eq_nil_iff (p : Char → Bool) (s : Str) :
    pyStripP p s = [] ↔ ∀ c ∈ s, p c := by
  unfold pyStripP
  rw [List.reverse_eq_nil_iff, List.dropWhile_eq_nil_iff]
  constructor
  · intro h c hc
    rw [← List.takeWhile_append_dropWhile p s, List.mem_append] at hc
    rcases hc with hc | hc
    · exact List.mem_takeWhile_imp hc
    · exact h c (List.mem_reverse.mpr hc)
  · intro h c hc
    rw [List.mem_reverse] at hc
    exact h c ((List.dropWhile_sublist p).subset hc)

lemma stripWS_lower_nil_iff (s : Str) :
    pyStripWS (pyLower s) = [] ↔ pyStripWS s = [] := by
  unfold pyStripWS pyLower
  rw [stripP_eq_nil_iff, stripP_eq_nil_iff]
  constructor
  · intro h c hc
    have h2 := h (pyLowerChar c) (List.mem_map_of_mem pyLowerChar hc)
    rwa [pyIsSpace_pyLowerChar] at h2
  · intro h c hc
    rw [List.mem_map] at hc
    obtain ⟨d, hd, rfl⟩ := hc
    rw [pyIsSpace_pyLowerChar]
    exact h d hd

/-- The model `to_genre_listE` never errors; its value is `to_genre_list`. -/
lemma to_genre_listE_eq (v : PyVal) : to_genre_listE v = .ok (to_genre_list v) := by
  cases v <;> rfl

/-!
### Pagination-loop lemmas
-/

lemma searchAux_requests_lt (provider : Nat → Page) (limit : Nat) (minPop : Option Int) :
    ∀ (n offset : Nat), 10000 - offset ≤ n → offset < 10000 →
      ∀ x ∈ (searchAux provider limit minPop offset).1, x < 10000 := by
  intro n
  induction n with
  | zero => intro offset h1 h2 x hx; omega
  | succ n ih =>
    intro offset h1 h2 x hx
    rw [searchAux] at hx
    split at hx
    · simp at hx; omega
    · split at hx
      · simp at hx; omega
      · rename_i hcond
        simp only [List.mem_cons] at hx
        rcases hx with rfl | hx
        · omega
        · have hcl : 1 ≤ clampLimit limit := le_max_left 1 (min limit 50)
          push_neg at hcond
          exact ih (offset + clampLimit limit) (by omega) (by omega) x hx

lemma searchAux_yield (provider : Nat → Page) (limit : Nat) (minPop : Option Int) :
    ∀ (n offset : Nat), 10000 - offset ≤ n →
      (searchAux provider limit minPop offset).2
        = (searchAux provider limit minPop offset).1.flatMap
            (fun r => (provider r).items.filter (keepItem minPop)) := by
  intro n
  induction n with
  | zero =>
    intro offset h1
    rw [searchAux]
    split
    · rename_i hempty
      simp [List.isEmpty_iff.mp hempty]
    · split
      · simp
      · rename_i hcond
        have hcl : 1 ≤ clampLimit limit := le_max_left 1 (min limit 50)
        push_neg at hcond
        omega
  | succ n ih =>
    intro offset h1
    rw [searchAux]
    split
    · rename_i hempty
      simp [List.isEmpty_iff.mp hempty]
    · split
      · simp
      · rename_i hcond
        have hcl : 1 ≤ clampLimit limit := le_max_left 1 (min limit 50)
        push_neg at hcond
        simp only [List.flatMap_cons]
        rw [← ih (offset + clampLimit limit) (by omega)]

lemma provider50000_count :
    ∀ (k : Nat), 1 ≤ k → ∀ offset, offset + 50 * k = 10000 →
      (searchAux provider50000 50 none offset).1.length = k := by
  intro k
  induction k with
  | zero => omega
  | succ j ih =>
    intro _ offset hoff
    rw [searchAux]
    rcases Nat.eq_zero_or_pos j with rfl | hj
    · have hoff2 : offset = 9950 := by omega
      subst hoff2
      norm_num [provider50000, clampLimit]
    · have hcond : ¬(offset + clampLimit 50 ≥ (provider50000 offset).total
          ∨ offset + clampLimit 50 ≥ 10000) := by
        simp only [provider50000, clampLimit]
        omega
      rw [if_neg (by simp [provider50000]), if_neg hcond]
      simp only [List.length_cons]
      rw [ih hj (offset + clampLimit 50) (by simp [clampLimit]; omega)]

/-!
### Pipeline lemmas
-/

/-- Every output row of `compute_genre_stats` is the aggregation of the
group keyed by its own `genre_clean`. -/
lemma mem_compute_genre_stats {df : List TrackRow} {g : GenreStat}
    (h : g ∈ compute_genre_stats df) :
    g = aggGroup (cleanedRows df) g.genre_clean := by
  unfold compute_genre_stats at h
  split at h
  · simp at h
  · rw [List.mem_map] at h
    obtain ⟨k, hk, rfl⟩ := h
    rfl

/-!
### Claims
-/

/-- C1: for every input value of any runtime shape, `to_genre_list`
returns an ordered sequence of strings without raising (no internal
exception escapes: `to_genre_listE` always returns `.ok`), and a
missing/null value (`None` or NaN) yields the empty sequence. -/
theorem C1_to_genre_list_total :
    (∀ v : PyVal, to_genre_listE v = .ok (to_genre_list v)) ∧
    to_genre_listE .vNone = .ok [] ∧ to_genre_listE .vNaN = .ok [] :=
  ⟨to_genre_listE_eq, rfl, rfl⟩

/-- C2: with provider-reported total 120, page size 50 and
`min_popularity` unset, the loop issues exactly the 3 page requests at
offsets 0, 50, 100, yields all 120 items, and stops. -/
theorem C2_pagination_termination_120 :
    (spotify_search_tracks provider120 50 none).1 = [0, 50, 100] ∧
    (spotify_search_tracks provider120 50 none).2.length = 120 := by
  constructor <;>
    simp [spotify_search_tracks, searchAux, provider120, clampLimit, keepItem,
      List.filter_replicate]

/-- C3: no page request is ever issued at an offset at or beyond the hard
10,000 ceiling (for any provider, page size and filter), and in the
concrete total-50,000/page-50 scenario the loop stops after exactly 200
page requests. -/
theorem C3_hard_cap :
    (∀ (provider : Nat → Page) (limit : Nat) (minPop : Option Int),
        ∀ x ∈ (spotify_search_tracks provider limit minPop).1, x < 10000) ∧
    (spotify_search_tracks provider50000 50 none).1.length = 200 := by
  constructor
  · intro provider limit minPop x hx
    exact searchAux_requests_lt provider limit minPop 10000 0 (by omega) (by omega) x hx
  · exact provider50000_count 200 (by omega) 0 (by omega)

/-- Witness for C3: the first request of a run against a provider with an
empty first page is at offset 0, which the theorem bounds below 10,000. -/
theorem C3_hard_cap_witness : (0 : Nat) < 10000 :=
  C3_hard_cap.1 providerEmpty 1 none 0
    (by simp [spotify_search_tracks, searchAux, providerEmpty])

/-- C4: the yielded items are exactly the fetched pages' items filtered by
the popularity test (so an item is yielded iff `min_popularity` is unset
or its popularity — defaulting to 0 when absent — reaches it), while the
offsets advance by the full page size independently of the filter: in the
3-item page scenario with popularities 10, 60, 90 and threshold 50, the
requests are at offsets 0 and 3 (advancing by 3, not by 2) and each page
yields exactly the two items with popularity 60 and 90. -/
theorem C4_popularity_filter :
    (∀ (provider : Nat → Page) (limit : Nat) (minPop : Option Int),
        (spotify_search_tracks provider limit minPop).2
          = (spotify_search_tracks provider limit minPop).1.flatMap
              (fun r => (provider r).items.filter (keepItem minPop))) ∧
    (∀ m : Int, keepItem (some m) ⟨none⟩ = decide ((0 : Int) ≥ m)) ∧
    (spotify_search_tracks provider3 3 (some 50)).1 = [0, 3] ∧
    (spotify_search_tracks provider3 3 (some 50)).2.map (fun t => t.popularity)
      = [some 60, some 90, some 60, some 90] := by
  refine ⟨fun provider limit minPop => ?_, fun m => rfl, ?_, ?_⟩
  · exact searchAux_yield provider limit minPop 10000 0 (by omega)
  · simp [spotify_search_tracks, searchAux, provider3, clampLimit, keepItem]
  · simp [spotify_search_tracks, searchAux, provider3, clampLimit, keepItem]

/-- C5: a track whose genre field normalizes to several distinct genres is
credited once in each of those genre groups — in the `"pop, rock"`
scenario both the `pop` row and the `rock` row count the single track —
and, for every input table, the sum of `tracks` over all genre rows is at
least the number of distinct tracks that have at least one genre. -/
theorem C5_multilabel_fanout :
    ((compute_genre_stats dfPopRock).map (fun g => (g.genre_clean, g.tracks))
        = [("pop".data, 1), ("rock".data, 1)]) ∧
    (∀ df : List TrackRow,
        nuniqueStr ((cleanedRows df).map (fun r => r.track_id))
          ≤ ((compute_genre_stats df).map (fun g => g.tracks)).sum) := by
  constructor
  · decide
  · intro df
    by_cases hrows : (cleanedRows df).isEmpty
    · rw [List.isEmpty_iff] at hrows
      simp [compute_genre_stats, hrows, nuniqueStr]
    · have hcg : compute_genre_stats df
          = (genreKeys (cleanedRows df)).map (aggGroup (cleanedRows df)) := by
        unfold compute_genre_stats
        rw [if_neg hrows]
      rw [hcg, List.map_map]
      have htracks : ((fun g => g.tracks) ∘ aggGroup (cleanedRows df))
          = fun k => nuniqueStr (((groupRows (cleanedRows df) k)).map (fun r => r.track_id)) :=
        rfl
      rw [htracks]
      -- pass to Finset cardinalities
      have hsub : ((cleanedRows df).map (fun r => r.track_id)).toFinset
          ⊆ (genreKeys (cleanedRows df)).toFinset.biUnion
              (fun k => ((groupRows (cleanedRows df) k).map (fun r => r.track_id)).toFinset) := by
        intro t ht
        rw [List.mem_toFinset, List.mem_map] at ht
        obtain ⟨r, hr, rfl⟩ := ht
        rw [Finset.mem_biUnion]
        refine ⟨r.genre_clean, ?_, ?_⟩
        · rw [List.mem_toFinset]
          exact List.mem_dedup.mpr (List.mem_map_of_mem _ hr)
        · rw [List.mem_toFinset, List.mem_map]
          exact ⟨r, List.mem_filter.mpr ⟨hr, by simp⟩, rfl⟩
      have hnodup : (genreKeys (cleanedRows df)).Nodup := List.nodup_dedup _
      calc nuniqueStr ((cleanedRows df).map (fun r => r.track_id))
          = ((cleanedRows df).map (fun r => r.track_id)).toFinset.card :=
            (List.card_toFinset _).symm
        _ ≤ ((genreKeys (cleanedRows df)).toFinset.biUnion
              (fun k => ((groupRows (cleanedRows df) k).map (fun r => r.track_id)).toFinset)).card :=
            Finset.card_le_card hsub
        _ ≤ ∑ k ∈ (genreKeys (cleanedRows df)).toFinset,
              ((groupRows (cleanedRows df) k).map (fun r => r.track_id)).toFinset.card :=
            Finset.card_biUnion_le
        _ = ((genreKeys (cleanedRows df)).map
              (fun k => ((groupRows (cleanedRows df) k).map (fun r => r.track_id)).toFinset.card)).sum :=
            List.sum_toFinset _ hnodup
        _ = ((genreKeys (cleanedRows df)).map
              (fun k => nuniqueStr ((groupRows (cleanedRows df) k).map (fun r => r.track_id)))).sum := by
            simp only [List.card_toFinset]
            rfl

/-- C6: among the rows of one `compute_genre_stats` output, if two rows
have the identical (defined) `pop_mean` and one has strictly more distinct
tracks, its `score` is strictly higher, because
`volume_weight = sqrt(tracks) * 25` is strictly increasing and
`score = volume_weight + pop_mean`. -/
theorem C6_score_monotonicity (df : List TrackRow) (g1 g2 : GenreStat) (q : ℚ)
    (h1 : g1 ∈ compute_genre_stats df) (h2 : g2 ∈ compute_genre_stats df)
    (hm1 : g1.pop_mean = some q) (hm2 : g2.pop_mean = some q)
    (ht : g2.tracks < g1.tracks) :
    ∃ s1 s2 : ℝ, score g1 = some s1 ∧ score g2 = some s2 ∧ s2 < s1 := by
  refine ⟨volume_weight g1.tracks + (q : ℝ), volume_weight g2.tracks + (q : ℝ), ?_, ?_, ?_⟩
  · rw [score, hm1]; rfl
  · rw [score, hm2]; rfl
  · have hsq : Real.sqrt g2.tracks < Real.sqrt g1.tracks :=
      Real.sqrt_lt_sqrt (Nat.cast_nonneg _) (by exact_mod_cast ht)
    have hmul := mul_lt_mul_of_pos_right hsq (by norm_num : (0:ℝ) < 25)
    unfold volume_weight
    linarith

/-- Witness for C6: in the `dfScore` table, `pop` (2 tracks) and `rock`
(1 track) both have `pop_mean = 80`, and `pop` scores strictly higher. -/
theorem C6_score_monotonicity_witness :
    ∃ s1 s2 : ℝ,
      score (aggGroup (cleanedRows dfScore) "pop".data) = some s1 ∧
      score (aggGroup (cleanedRows dfScore) "rock".data) = some s2 ∧ s2 < s1 := by
  have hlist : compute_genre_stats dfScore
      = [aggGroup (cleanedRows dfScore) "pop".data,
         aggGroup (cleanedRows dfScore) "rock".data] := rfl
  have hmem1 : aggGroup (cleanedRows dfScore) "pop".data ∈ compute_genre_stats dfScore := by
    rw [hlist]; exact List.mem_cons_self _ _
  have hmem2 : aggGroup (cleanedRows dfScore) "rock".data ∈ compute_genre_stats dfScore := by
    rw [hlist]; exact List.mem_cons_of_mem _ (List.mem_cons_self _ _)
  have hfm1 : ((groupRows (cleanedRows dfScore) "pop".data).filterMap
      (fun r => r.popularity)) = [(80 : ℚ), 80] := by decide
  have hfm2 : ((groupRows (cleanedRows dfScore) "rock".data).filterMap
      (fun r => r.popularity)) = [(80 : ℚ)] := by decide
  have hm1 : (aggGroup (cleanedRows dfScore) "pop".data).pop_mean = some 80 := by
    show meanPop (groupRows (cleanedRows dfScore) "pop".data) = some 80
    unfold meanPop
    rw [hfm1]
    norm_num
  have hm2 : (aggGroup (cleanedRows dfScore) "rock".data).pop_mean = some 80 := by
    show meanPop (groupRows (cleanedRows dfScore) "rock".data) = some 80
    unfold meanPop
    rw [hfm2]
    norm_num
  have ht : (aggGroup (cleanedRows dfScore) "rock".data).tracks
      < (aggGroup (cleanedRows dfScore) "pop".data).tracks := by decide
  exact C6_score_monotonicity dfScore _ _ 80 hmem1 hmem2 hm1 hm2 ht

/-- C7: within each genre group, `popularity_score` is the sum over all
exploded rows of `(popularity or 0)/100` (null counted as zero) while
`pop_mean` is the mean of raw popularity with null rows excluded; in the
`dfAsym` group (one null row, one 80 row) this gives score 4/5 and mean 80
rather than 40. -/
theorem C7_null_popularity_asymmetry :
    (∀ (df : List TrackRow), ∀ g ∈ compute_genre_stats df,
        g.popularity_score
            = popularity_score_spec (groupRows (cleanedRows df) g.genre_clean) ∧
        g.pop_mean = pop_mean_spec (groupRows (cleanedRows df) g.genre_clean)) ∧
    (compute_genre_stats dfAsym).map (fun g => g.popularity_score) = [4/5] ∧
    (compute_genre_stats dfAsym).map (fun g => g.pop_mean) = [some 80] := by
  refine ⟨?_, ?_, ?_⟩
  · intro df g hg
    rw [mem_compute_genre_stats hg]
    exact ⟨rfl, rfl⟩
  · rw [show compute_genre_stats dfAsym
        = [aggGroup (cleanedRows dfAsym) ("pop".data : Str)] from rfl]
    simp only [List.map_cons, List.map_nil, List.cons.injEq, and_true]
    show ((groupRows (cleanedRows dfAsym) "pop".data).map popWeight).sum = 4/5
    rw [show groupRows (cleanedRows dfAsym) ("pop".data : Str)
        = [{ genre_clean := "pop".data, popularity := none,
             track_id := "t1".data, main_artist_name := "ArtistA".data },
           { genre_clean := "pop".data, popularity := some 80,
             track_id := "t2".data, main_artist_name := "ArtistB".data }] from by decide]
    simp only [List.map_cons, List.map_nil, List.sum_cons, List.sum_nil, popWeight,
      Option.getD_none, Option.getD_some]
    norm_num
  · rw [show compute_genre_stats dfAsym
        = [aggGroup (cleanedRows dfAsym) ("pop".data : Str)] from rfl]
    simp only [List.map_cons, List.map_nil, List.cons.injEq, and_true]
    show meanPop (groupRows (cleanedRows dfAsym) "pop".data) = some 80
    unfold meanPop
    rw [show ((groupRows (cleanedRows dfAsym) "pop".data).filterMap
        (fun r => r.popularity)) = [(80 : ℚ)] from by decide]
    norm_num

/-- Witness for C7: the general correspondence instantiated at the `pop`
row of `dfAsym`. -/
theorem C7_null_popularity_asymmetry_witness :
    (aggGroup (cleanedRows dfAsym) "pop".data).popularity_score
        = popularity_score_spec (groupRows (cleanedRows dfAsym)
            (aggGroup (cleanedRows dfAsym) ("pop".data : Str)).genre_clean) ∧
    (aggGroup (cleanedRows dfAsym) "pop".data).pop_mean
        = pop_mean_spec (groupRows (cleanedRows dfAsym)
            (aggGroup (cleanedRows dfAsym) ("pop".data : Str)).genre_clean) :=
  C7_null_popularity_asymmetry.1 dfAsym _
    (by rw [show compute_genre_stats dfAsym
          = [aggGroup (cleanedRows dfAsym) ("pop".data : Str)] from rfl]
        exact List.mem_singleton.mpr rfl)

/-- C9 counterexample: in `dfC9` two exploded rows of the `pop` group
carry different primary-artist identifiers (`a1`, `a2`) but the same
artist name, yet the code reports `artists = 1` whereas the claim's
"count of distinct primary-artist identifiers" is 2. -/
theorem C9_artists_counterexample :
    (compute_genre_stats dfC9).map (fun g => (g.genre_clean, g.artists))
        = [("pop".data, 1)] ∧
    artists_by_id_spec dfC9 "pop".data = 2 ∧ (1 : Nat) ≠ 2 := by
  decide

/-- C9 amended: the `artists` value of each genre row equals the count of
distinct primary-artist *names* (`main_artist_name nunique`) among the
exploded rows of that genre group — not identifiers; rows with different
identifiers but one shared name count once. -/
theorem C9_artists_are_distinct_names (df : List TrackRow) :
    ∀ g ∈ compute_genre_stats df,
      g.artists = nuniqueStr ((groupRows (cleanedRows df) g.genre_clean).map
        (fun r => r.main_artist_name)) := by
  intro g hg
  rw [mem_compute_genre_stats hg]
  rfl

/-- Witness for C9's amended claim: instantiated at the `pop` row of
`dfC9`. -/
theorem C9_artists_are_distinct_names_witness :
    (aggGroup (cleanedRows dfC9) "pop".data).artists
        = nuniqueStr ((groupRows (cleanedRows dfC9)
            (aggGroup (cleanedRows dfC9) ("pop".data : Str)).genre_clean).map
          (fun r => r.main_artist_name)) :=
  C9_artists_are_distinct_names dfC9 _
    (by rw [show compute_genre_stats dfC9
          = [aggGroup (cleanedRows dfC9) ("pop".data : Str)] from rfl]
        exact List.mem_singleton.mpr rfl)

/-- C10: a genre token repeated within one row's genre field counts the
track once in `tracks` (a distinct count) but contributes once per
occurrence to `popularity_score` and to the rows entering `pop_mean`: in
`dfC10` (`"pop, pop"` at 100 plus `"pop"` at 40) the `pop` row has
`tracks = 2`, `popularity_score = (100 + 100 + 40)/100 = 12/5` and
`pop_mean = (100 + 100 + 40)/3 = 80` (not the per-track 70). -/
theorem C10_duplicate_token_accounting :
    (∀ (df : List TrackRow), ∀ g ∈ compute_genre_stats df,
        g.tracks = nuniqueStr ((groupRows (cleanedRows df) g.genre_clean).map
          (fun r => r.track_id)) ∧
        g.popularity_score
            = ((groupRows (cleanedRows df) g.genre_clean).map popWeight).sum) ∧
    ((compute_genre_stats dfC10).map (fun g => (g.genre_clean, g.tracks))
        = [("pop".data, 2)]) ∧
    (compute_genre_stats dfC10).map (fun g => g.popularity_score) = [12/5] ∧
    (compute_genre_stats dfC10).map (fun g => g.pop_mean) = [some 80] := by
  refine ⟨?_, by decide, ?_, ?_⟩
  · intro df g hg
    rw [mem_compute_genre_stats hg]
    exact ⟨rfl, rfl⟩
  · rw [show compute_genre_stats dfC10
        = [aggGroup (cleanedRows dfC10) ("pop".data : Str)] from rfl]
    simp only [List.map_cons, List.map_nil, List.cons.injEq, and_true]
    show ((groupRows (cleanedRows dfC10) "pop".data).map popWeight).sum = 12/5
    rw [show groupRows (cleanedRows dfC10) ("pop".data : Str)
        = [{ genre_clean := "pop".data, popularity := some 100,
             track_id := "t1".data, main_artist_name := "ArtistA".data },
           { genre_clean := "pop".data, popularity := some 100,
             track_id := "t1".data, main_artist_name := "ArtistA".data },
           { genre_clean := "pop".data, popularity := some 40,
             track_id := "t2".data, main_artist_name := "ArtistB".data }] from by decide]
    simp only [List.map_cons, List.map_nil, List.sum_cons, List.sum_nil, popWeight,
      Option.getD_some]
    norm_num
  · rw [show compute_genre_stats dfC10
        = [aggGroup (cleanedRows dfC10) ("pop".data : Str)] from rfl]
    simp only [List.map_cons, List.map_nil, List.cons.injEq, and_true]
    show meanPop (groupRows (cleanedRows dfC10) "pop".data) = some 80
    unfold meanPop
    rw [show ((groupRows (cleanedRows dfC10) "pop".data).filterMap
        (fun r => r.popularity)) = [(100 : ℚ), 100, 40] from by decide]
    norm_num

/-- Witness for C10: the general distinct-track/per-occurrence-score
correspondence instantiated at the `pop` row of `dfC10`. -/
theorem C10_duplicate_token_accounting_witness :
    (aggGroup (cleanedRows dfC10) "pop".data).tracks
        = nuniqueStr ((groupRows (cleanedRows dfC10)
            (aggGroup (cleanedRows dfC10) ("pop".data : Str)).genre_clean).map
          (fun r => r.track_id)) ∧
    (aggGroup (cleanedRows dfC10) "pop".data).popularity_score
        = ((groupRows (cleanedRows dfC10)
            (aggGroup (cleanedRows dfC10) ("pop".data : Str)).genre_clean).map
          popWeight).sum :=
  C10_duplicate_token_accounting.1 dfC10 _
    (by rw [show compute_genre_stats dfC10
          = [aggGroup (cleanedRows dfC10) ("pop".data : Str)] from rfl]
        exact List.mem_singleton.mpr rfl)

/-- Elements produced by the shared sequence comprehension are lowercase,
whitespace-trimmed and non-empty. -/
lemma seqNorm_elem {xs : List PyVal} {e : Str} (h : e ∈ seqNorm xs) :
    pyLower e = e ∧ pyStripWS e = e ∧ e ≠ [] := by
  unfold seqNorm at h
  rw [List.mem_map] at h
  obtain ⟨x, hx, rfl⟩ := h
  rw [List.mem_filter] at hx
  have hcond : pyStripWS (pyStr x) ≠ [] := by simpa using hx.2
  refine ⟨lowerFixed_stripP (pyLower_idem _), stripP_idem _ _, ?_⟩
  intro hnil
  rw [show pyStripWS (pyLower (pyStr x)) = pyStripP pyIsSpace (pyLower (pyStr x)) from rfl] at hnil
  exact hcond ((stripWS_lower_nil_iff (pyStr x)).mp hnil)

/-- Elements produced by the scalar fallback are lowercase,
whitespace-trimmed and non-empty. -/
lemma scalarNorm_elem {v : PyVal} {e : Str} (h : e ∈ scalarNorm v) :
    pyLower e = e ∧ pyStripWS e = e ∧ e ≠ [] := by
  unfold scalarNorm at h
  split at h
  · simp at h
  · rename_i hcond
    rw [List.mem_singleton] at h
    subst h
    refine ⟨lowerFixed_stripP (pyLower_idem _), stripP_idem _ _, ?_⟩
    intro hnil
    exact hcond (List.isEmpty_iff.mpr ((stripWS_lower_nil_iff (pyStr v)).mp hnil))

/-- Elements of the string branch come from a comma piece that is
non-blank before quote-stripping. -/
lemma strNorm_elem {s e : Str} (h : e ∈ strNorm s) :
    ∃ p ∈ strPieces s, pyStripWS p ≠ [] ∧ e = pyLower (pyStripQuotes (pyStripWS p)) := by
  unfold strNorm at h
  rw [List.mem_map] at h
  obtain ⟨p, hp, rfl⟩ := h
  rw [List.mem_filter] at hp
  exact ⟨p, hp.1, by simpa using hp.2, rfl⟩

/-- C8 counterexample: the claim "every element returned by
`to_genre_list` is non-empty and trimmed" fails on the string path: the
input `"''"` (two single quotes) yields the single element `""`, and
`"' pop'"` yields the element `" pop"`, which keeps its leading
whitespace because quotes are stripped after whitespace. -/
theorem C8_clean_elements_counterexample :
    to_genre_list (.vStr [squote, squote]) = [[]] ∧
    ([] : Str) ∈ to_genre_list (.vStr [squote, squote]) ∧
    (' ' :: "pop".data) ∈ to_genre_list (.vStr [squote, ' ', 'p', 'o', 'p', squote]) ∧
    pyStripWS (' ' :: "pop".data) ≠ ' ' :: "pop".data := by
  decide

/-- C8 amended: every element returned by `to_genre_list` is lowercase;
on every non-string path each element is additionally non-empty and
whitespace-trimmed; on the string path, the pieces dropped are exactly
those that are blank *before* quote-stripping — each returned element
comes from a comma piece with non-blank whitespace-trim, and is the
lowercase of that piece trimmed of whitespace and then of quotes (so it
may be empty or keep whitespace uncovered by the quote strip). -/
theorem C8_normalizer_element_shape :
    (∀ (v : PyVal) (e : Str), e ∈ to_genre_list v → pyLower e = e) ∧
    (∀ (v : PyVal) (e : Str), e ∈ to_genre_list v → (∀ s, v ≠ .vStr s) →
        pyStripWS e = e ∧ e ≠ []) ∧
    (∀ (s e : Str), e ∈ to_genre_list (.vStr s) →
        ∃ p ∈ strPieces s, pyStripWS p ≠ [] ∧ e = pyLower (pyStripQuotes (pyStripWS p))) := by
  refine ⟨?_, ?_, ?_⟩
  · intro v e h
    cases v with
    | vNone =>
      rw [show to_genre_list PyVal.vNone = [] from rfl] at h
      exact absurd h (List.not_mem_nil e)
    | vNaN =>
      rw [show to_genre_list PyVal.vNaN = [] from rfl] at h
      exact absurd h (List.not_mem_nil e)
    | vInt n => exact (scalarNorm_elem h).1
    | vObj s => exact (scalarNorm_elem h).1
    | vStr s =>
      obtain ⟨p, _, _, rfl⟩ := strNorm_elem h
      exact pyLower_idem _
    | vList xs => exact (seqNorm_elem h).1
    | vArr xs => exact (seqNorm_elem h).1
    | vIter xs => exact (seqNorm_elem h).1
  · intro v e h hne
    cases v with
    | vNone =>
      rw [show to_genre_list PyVal.vNone = [] from rfl] at h
      exact absurd h (List.not_mem_nil e)
    | vNaN =>
      rw [show to_genre_list PyVal.vNaN = [] from rfl] at h
      exact absurd h (List.not_mem_nil e)
    | vInt n => exact (scalarNorm_elem h).2
    | vObj s => exact (scalarNorm_elem h).2
    | vStr s => exact absurd rfl (hne s)
    | vList xs => exact (seqNorm_elem h).2
    | vArr xs => exact (seqNorm_elem h).2
    | vIter xs => exact (seqNorm_elem h).2
  · intro s e h
    exact strNorm_elem h

/-- Witness for C8's amended claim: the element `"pop"` of
`to_genre_list ["Pop"]` is lowercase, trimmed and non-empty, and the
element of `to_genre_list "'Pop'"` arises from its single piece. -/
theorem C8_normalizer_element_shape_witness :
    pyLower "pop".data = "pop".data ∧
    (pyStripWS "pop".data = "pop".data ∧ "pop".data ≠ []) ∧
    ∃ p ∈ strPieces [squote, 'P', 'o', 'p', squote], pyStripWS p ≠ [] ∧
      "pop".data = pyLower (pyStripQuotes (pyStripWS p)) :=
  ⟨C8_normalizer_element_shape.1 (.vList [.vStr "Pop".data]) "pop".data (by decide),
   C8_normalizer_element_shape.2.1 (.vList [.vStr "Pop".data]) "pop".data (by decide)
     (fun s h => PyVal.noConfusion h),
   C8_normalizer_element_shape.2.2 [squote, 'P', 'o', 'p', squote] "pop".data (by decide)⟩
